import Mathlib

/-!
Formal model of the HealthClaw server (src/server), a personal health-data
ingestion API.  The sync ingestion pipeline (`store_sync` in database.py),
the windowed read queries, the JSON extraction used by the nutrition
analyzer (nutrition.py) and the meal storage path are embedded as
executable Lean definitions, and the behavioural properties of the spec
are proved (or refuted) against them.

Modelling conventions:
* Python `datetime` values are abstracted to a count of minutes (`t : Int`);
  the `strftime("%Y-%m-%d")` calendar date becomes the floor-division day
  index `t.fdiv 1440`, and comparison of `isoformat()` strings coincides
  with comparison of `t`.
* SQLite REAL columns and Python floats are modelled as `Rat`; the claims
  under study involve only exact small values, no rounding behaviour.
* Tables are lists of row structures in insertion order; the
  `ON CONFLICT ... DO UPDATE` upserts replace the (unique) matching row in
  place, mirroring the UNIQUE constraints of the schema.
* Auto-increment ids and `created_at` / `updated_at` timestamp columns are
  not part of any claim and are omitted from the row structures.
-/

/-- Python truthiness coalescing used in `store_sync`: `x or None`
turns a computed total of `0` into SQL NULL. -/
def ratOrNone (x : Rat) : Option Rat :=
  if x = 0 then none else some x

/-- Analogue of `x or None` for the integer `workout_count`. -/
def natOrNone (n : Nat) : Option Int :=
  if n = 0 then none else some (n : Int)

/-- SQL `COALESCE(new, old)`: keep `new` when it is non-null. -/
def coal {α : Type} : Option α → Option α → Option α
  | some v, _ => some v
  | none, o => o

/-- Abstraction of a Python `datetime`: minutes since a fixed epoch.
Ordering and equality of `isoformat()` strings coincide with ordering and
equality of `t`. -/
structure PyDateTime where
  t : Int
deriving DecidableEq

/-- Calendar date of a timestamp, the abstraction of
`strftime("%Y-%m-%d")`: the (floor) day index. -/
def PyDateTime.day (d : PyDateTime) : Int :=
  d.t.fdiv 1440

/-- models.py `ActivityData`. -/
structure ActivityData where
  steps : Option Int := none
  distance_km : Option Rat := none
  active_calories : Option Rat := none
  basal_calories : Option Rat := none
  exercise_minutes : Option Rat := none
  stand_hours : Option Int := none
  flights_climbed : Option Int := none
  vo2_max : Option Rat := none
  walking_speed_kmh : Option Rat := none
  walking_steadiness : Option Rat := none
deriving DecidableEq

/-- models.py `HeartData`. -/
structure HeartData where
  resting_hr : Option Rat := none
  avg_hr : Option Rat := none
  min_hr : Option Rat := none
  max_hr : Option Rat := none
  hrv_sdnn : Option Rat := none
  walking_hr_avg : Option Rat := none
deriving DecidableEq

/-- models.py `SleepStage` (`end` is a Lean keyword, hence `end_`). -/
structure SleepStage where
  stage : String
  start : PyDateTime
  end_ : PyDateTime
  duration_min : Rat
deriving DecidableEq

/-- models.py `SleepSession`. -/
structure SleepSession where
  start : PyDateTime
  end_ : PyDateTime
  total_duration_min : Rat
  stages : List SleepStage := []
  in_bed_duration_min : Option Rat := none
deriving DecidableEq

/-- models.py `WorkoutSession`. -/
structure WorkoutSession where
  workout_type : String
  start : PyDateTime
  end_ : PyDateTime
  duration_min : Rat
  distance_km : Option Rat := none
  active_calories : Option Rat := none
  avg_hr : Option Rat := none
  max_hr : Option Rat := none
  elevation_gain_m : Option Rat := none
deriving DecidableEq

/-- models.py `MoodEntry`. -/
structure MoodEntry where
  kind : String
  timestamp : PyDateTime
  valence : Rat
  labels : List String := []
  associations : List String := []
deriving DecidableEq

/-- models.py `BodyData`. -/
structure BodyData where
  weight_kg : Option Rat := none
  bmi : Option Rat := none
  body_fat_pct : Option Rat := none
  height_cm : Option Rat := none
deriving DecidableEq

/-- models.py `VitalsData`. -/
structure VitalsData where
  blood_pressure_systolic : Option Rat := none
  blood_pressure_diastolic : Option Rat := none
  blood_oxygen_pct : Option Rat := none
  respiratory_rate : Option Rat := none
  body_temperature_c : Option Rat := none
deriving DecidableEq

/-- models.py `MindfulnessSession`. -/
structure MindfulnessSession where
  start : PyDateTime
  end_ : PyDateTime
  duration_min : Rat
deriving DecidableEq

/-- models.py `HealthSyncPayload`. -/
structure HealthSyncPayload where
  device_id : String
  synced_at : PyDateTime
  period_from : PyDateTime
  period_to : PyDateTime
  activity : Option ActivityData := none
  heart : Option HeartData := none
  sleep : List SleepSession := []
  workouts : List WorkoutSession := []
  mood : List MoodEntry := []
  body : Option BodyData := none
  vitals : Option VitalsData := none
  mindfulness : List MindfulnessSession := []
  body_battery : Option Int := none
deriving DecidableEq

/-- One row of the `daily_summary` table (scalar columns; `id` and
`updated_at` omitted). -/
structure SummaryRow where
  date : Int
  steps : Option Int
  distance_km : Option Rat
  active_calories : Option Rat
  exercise_minutes : Option Rat
  stand_hours : Option Int
  flights_climbed : Option Int
  resting_hr : Option Rat
  avg_hr : Option Rat
  hrv_sdnn : Option Rat
  sleep_duration_min : Option Rat
  deep_sleep_min : Option Rat
  rem_sleep_min : Option Rat
  core_sleep_min : Option Rat
  awake_min : Option Rat
  weight_kg : Option Rat
  body_fat_pct : Option Rat
  body_battery : Option Int
  mood_avg_valence : Option Rat
  workout_count : Option Int
  workout_minutes : Option Rat
  workout_calories : Option Rat
  mindfulness_minutes : Option Rat
  blood_oxygen_pct : Option Rat
  respiratory_rate : Option Rat
deriving DecidableEq

/-- One row of the `workouts` table. -/
structure WorkoutRow where
  date : Int
  workout_type : String
  start_time : PyDateTime
  end_time : PyDateTime
  duration_min : Rat
  distance_km : Option Rat
  active_calories : Option Rat
  avg_hr : Option Rat
  max_hr : Option Rat
  elevation_gain_m : Option Rat
deriving DecidableEq

/-- One row of the `mood_entries` table. -/
structure MoodRow where
  date : Int
  kind : String
  timestamp : PyDateTime
  valence : Rat
  labels : List String
  associations : List String
deriving DecidableEq

/-- One row of the `sleep_sessions` table; `stages` stands for the
`stages_json` column (`json.dumps` of the stage list is injective on it). -/
structure SleepRow where
  date : Int
  start_time : PyDateTime
  end_time : PyDateTime
  total_duration_min : Rat
  in_bed_duration_min : Option Rat
  stages : List SleepStage
deriving DecidableEq

/-- The health-data portion of the SQLite database. -/
structure Db where
  sync_log : List HealthSyncPayload
  daily_summary : List SummaryRow
  workouts : List WorkoutRow
  mood_entries : List MoodRow
  sleep_sessions : List SleepRow
deriving DecidableEq

/-- A freshly initialised database (`init_db` on a new file). -/
def emptyDb : Db :=
  { sync_log := [], daily_summary := [], workouts := [], mood_entries := [],
    sleep_sessions := [] }

/-- Python `max(date_sleeps, key=lambda s: s.total_duration_min)`:
first session of maximal duration, `none` on the empty list. -/
def maxByDuration : List SleepSession → Option SleepSession
  | [] => none
  | s :: rest =>
      some (rest.foldl
        (fun acc u => if acc.total_duration_min < u.total_duration_min then u else acc) s)

/-- Sum of stage durations of one session for a given stage name
(database.py lines 179-182). -/
def stageSum (s : SleepSession) (name : String) : Rat :=
  ((s.stages.filter fun st => st.stage = name).map (·.duration_min)).sum

/-- The sleep sessions of a payload whose wake-up (`end`) date equals the
summary date (database.py line 175). -/
def dateSleeps (p : HealthSyncPayload) : List SleepSession :=
  p.sleep.filter fun s => s.end_.day = p.period_to.day

/-- The `excluded` row of the `daily_summary` upsert: the VALUES tuple
computed by `store_sync` from the payload (database.py lines 164-260). -/
def mkSummaryDelta (p : HealthSyncPayload) : SummaryRow :=
  let longest := maxByDuration (dateSleeps p)
  let sleep_total : Rat := match longest with
    | some l => l.total_duration_min
    | none => 0
  let deep_total : Rat := match longest with
    | some l => stageSum l "deep"
    | none => 0
  let rem_total : Rat := match longest with
    | some l => stageSum l "rem"
    | none => 0
  let core_total : Rat := match longest with
    | some l => stageSum l "core"
    | none => 0
  let awake_total : Rat := match longest with
    | some l => stageSum l "awake"
    | none => 0
  let mood_avg : Option Rat :=
    if p.mood.isEmpty then none
    else some ((p.mood.map (·.valence)).sum / (p.mood.length : Rat))
  { date := p.period_to.day
    steps := p.activity.bind (·.steps)
    distance_km := p.activity.bind (·.distance_km)
    active_calories := p.activity.bind (·.active_calories)
    exercise_minutes := p.activity.bind (·.exercise_minutes)
    stand_hours := p.activity.bind (·.stand_hours)
    flights_climbed := p.activity.bind (·.flights_climbed)
    resting_hr := p.heart.bind (·.resting_hr)
    avg_hr := p.heart.bind (·.avg_hr)
    hrv_sdnn := p.heart.bind (·.hrv_sdnn)
    sleep_duration_min := ratOrNone sleep_total
    deep_sleep_min := ratOrNone deep_total
    rem_sleep_min := ratOrNone rem_total
    core_sleep_min := ratOrNone core_total
    awake_min := ratOrNone awake_total
    weight_kg := p.body.bind (·.weight_kg)
    body_fat_pct := p.body.bind (·.body_fat_pct)
    body_battery := p.body_battery
    mood_avg_valence := mood_avg
    workout_count := natOrNone p.workouts.length
    workout_minutes := ratOrNone ((p.workouts.map (·.duration_min)).sum)
    workout_calories := ratOrNone ((p.workouts.map (fun w => w.active_calories.getD 0)).sum)
    mindfulness_minutes := ratOrNone ((p.mindfulness.map (·.duration_min)).sum)
    blood_oxygen_pct := p.vitals.bind (·.blood_oxygen_pct)
    respiratory_rate := p.vitals.bind (·.respiratory_rate) }

/-- Field-wise `ON CONFLICT(date) DO UPDATE SET c = COALESCE(excluded.c, c)`
applied to the conflicting row (database.py lines 207-232). -/
def mergeRow (delta old : SummaryRow) : SummaryRow :=
  { date := old.date
    steps := coal delta.steps old.steps
    distance_km := coal delta.distance_km old.distance_km
    active_calories := coal delta.active_calories old.active_calories
    exercise_minutes := coal delta.exercise_minutes old.exercise_minutes
    stand_hours := coal delta.stand_hours old.stand_hours
    flights_climbed := coal delta.flights_climbed old.flights_climbed
    resting_hr := coal delta.resting_hr old.resting_hr
    avg_hr := coal delta.avg_hr old.avg_hr
    hrv_sdnn := coal delta.hrv_sdnn old.hrv_sdnn
    sleep_duration_min := coal delta.sleep_duration_min old.sleep_duration_min
    deep_sleep_min := coal delta.deep_sleep_min old.deep_sleep_min
    rem_sleep_min := coal delta.rem_sleep_min old.rem_sleep_min
    core_sleep_min := coal delta.core_sleep_min old.core_sleep_min
    awake_min := coal delta.awake_min old.awake_min
    weight_kg := coal delta.weight_kg old.weight_kg
    body_fat_pct := coal delta.body_fat_pct old.body_fat_pct
    body_battery := coal delta.body_battery old.body_battery
    mood_avg_valence := coal delta.mood_avg_valence old.mood_avg_valence
    workout_count := coal delta.workout_count old.workout_count
    workout_minutes := coal delta.workout_minutes old.workout_minutes
    workout_calories := coal delta.workout_calories old.workout_calories
    mindfulness_minutes := coal delta.mindfulness_minutes old.mindfulness_minutes
    blood_oxygen_pct := coal delta.blood_oxygen_pct old.blood_oxygen_pct
    respiratory_rate := coal delta.respiratory_rate old.respiratory_rate }

/-- The `daily_summary` upsert: UNIQUE(date) guarantees at most one
conflicting row, which is updated in place; otherwise the row is inserted. -/
def upsertSummary (delta : SummaryRow) : List SummaryRow → List SummaryRow
  | [] => [delta]
  | r :: rs =>
      if r.date = delta.date then mergeRow delta r :: rs
      else r :: upsertSummary delta rs

/-- Key of a `sleep_sessions` row under UNIQUE(date, start_time). -/
def sleepKey (r : SleepRow) : Int × Int :=
  (r.date, r.start_time.t)

/-- `ON CONFLICT(date, start_time) DO UPDATE` of the sleep upsert
(database.py lines 288-295): end time, durations and stage breakdown are
overwritten. -/
def overwriteSleep (new old : SleepRow) : SleepRow :=
  { old with
    end_time := new.end_time
    total_duration_min := new.total_duration_min
    in_bed_duration_min := new.in_bed_duration_min
    stages := new.stages }

/-- Upsert of one sleep row keyed by (date, start_time). -/
def upsertSleep (new : SleepRow) : List SleepRow → List SleepRow
  | [] => [new]
  | r :: rs =>
      if sleepKey r = sleepKey new then overwriteSleep new r :: rs
      else r :: upsertSleep new rs

/-- Row inserted into `workouts` for one payload workout, dated by its
start time (database.py lines 264-272). -/
def mkWorkoutRow (w : WorkoutSession) : WorkoutRow :=
  { date := w.start.day, workout_type := w.workout_type, start_time := w.start,
    end_time := w.end_, duration_min := w.duration_min,
    distance_km := w.distance_km, active_calories := w.active_calories,
    avg_hr := w.avg_hr, max_hr := w.max_hr, elevation_gain_m := w.elevation_gain_m }

/-- Row inserted into `mood_entries` for one payload mood sample. -/
def mkMoodRow (m : MoodEntry) : MoodRow :=
  { date := m.timestamp.day, kind := m.kind, timestamp := m.timestamp,
    valence := m.valence, labels := m.labels, associations := m.associations }

/-- Row upserted into `sleep_sessions` for one payload sleep session,
dated by its wake-up (`end`) time (database.py lines 286-298). -/
def mkSleepRow (s : SleepSession) : SleepRow :=
  { date := s.end_.day, start_time := s.start, end_time := s.end_,
    total_duration_min := s.total_duration_min,
    in_bed_duration_min := s.in_bed_duration_min, stages := s.stages }

/-- database.py `store_sync`: archive the payload, upsert the daily
summary for the `period_to` date, insert workouts and mood entries,
upsert sleep sessions. -/
def storeSync (p : HealthSyncPayload) (db : Db) : Db :=
  { sync_log := db.sync_log ++ [p]
    daily_summary := upsertSummary (mkSummaryDelta p) db.daily_summary
    workouts := db.workouts ++ p.workouts.map mkWorkoutRow
    mood_entries := db.mood_entries ++ p.mood.map mkMoodRow
    sleep_sessions := p.sleep.foldl (fun t s => upsertSleep (mkSleepRow s) t) db.sleep_sessions }

/-- A sequence of `store_sync` calls applied in order. -/
def syncSeq (ps : List HealthSyncPayload) (db : Db) : Db :=
  ps.foldl (fun d p => storeSync p d) db

/-- The `daily_summary` row stored for a date (UNIQUE(date): the first
match is the only match in reachable states). -/
def summaryAt : List SummaryRow → Int → Option SummaryRow
  | [], _ => none
  | r :: rs, d => if r.date = d then some r else summaryAt rs d

/-- Value of one scalar column of the `daily_summary` row for a date;
`none` both for a NULL column and for a missing row. -/
def sField {α : Type} (db : Db) (d : Int) (f : SummaryRow → Option α) : Option α :=
  (summaryAt db.daily_summary d).bind f

/-- Sort order `ORDER BY date DESC` of the summary queries. -/
def dateGe (a b : SummaryRow) : Prop :=
  b.date ≤ a.date

instance : DecidableRel dateGe := fun a b => Int.decLe b.date a.date

instance : IsTotal SummaryRow dateGe := ⟨fun a b => Int.le_total b.date a.date⟩

instance : IsTrans SummaryRow dateGe := ⟨fun _ _ _ h₁ h₂ => le_trans h₂ h₁⟩

/-- Sort order `ORDER BY start_time DESC` of the workout query. -/
def workoutGe (a b : WorkoutRow) : Prop :=
  b.start_time.t ≤ a.start_time.t

instance : DecidableRel workoutGe := fun a b => Int.decLe b.start_time.t a.start_time.t

instance : IsTotal WorkoutRow workoutGe := ⟨fun a b => Int.le_total b.start_time.t a.start_time.t⟩

instance : IsTrans WorkoutRow workoutGe := ⟨fun _ _ _ h₁ h₂ => le_trans h₂ h₁⟩

/-- Sort order `ORDER BY timestamp DESC` of the mood query. -/
def moodGe (a b : MoodRow) : Prop :=
  b.timestamp.t ≤ a.timestamp.t

instance : DecidableRel moodGe := fun a b => Int.decLe b.timestamp.t a.timestamp.t

instance : IsTotal MoodRow moodGe := ⟨fun a b => Int.le_total b.timestamp.t a.timestamp.t⟩

instance : IsTrans MoodRow moodGe := ⟨fun _ _ _ h₁ h₂ => le_trans h₂ h₁⟩

/-- Sort order `ORDER BY start_time DESC` of the sleep query. -/
def sleepGe (a b : SleepRow) : Prop :=
  b.start_time.t ≤ a.start_time.t

instance : DecidableRel sleepGe := fun a b => Int.decLe b.start_time.t a.start_time.t

instance : IsTotal SleepRow sleepGe := ⟨fun a b => Int.le_total b.start_time.t a.start_time.t⟩

instance : IsTrans SleepRow sleepGe := ⟨fun _ _ _ h₁ h₂ => le_trans h₂ h₁⟩

/-- database.py `get_daily_summaries`:
`SELECT * FROM daily_summary ORDER BY date DESC LIMIT days` — note: a row
limit, not a date window. -/
def getDailySummaries (db : Db) (days : Nat) : List SummaryRow :=
  (List.insertionSort dateGe db.daily_summary).take days

/-- database.py `get_latest_summary`. -/
def getLatestSummary (db : Db) : Option SummaryRow :=
  (getDailySummaries db 1).head?

/-- Response of the `/api/health/latest` endpoint (main.py `get_latest`). -/
inductive LatestResp where
  | noData
  | row (s : SummaryRow)
deriving DecidableEq

/-- main.py `get_latest`: the `"no_data"` sentinel when no summary exists. -/
def getLatestEndpoint (db : Db) : LatestResp :=
  match getLatestSummary db with
  | none => .noData
  | some s => .row s

/-- database.py `get_workouts`:
`WHERE date >= date('now', '-N days') ORDER BY start_time DESC`.
`today` is the day index of `date('now')`. -/
def getWorkouts (today : Int) (days : Nat) (db : Db) : List WorkoutRow :=
  List.insertionSort workoutGe
    (db.workouts.filter fun w => today - (days : Int) ≤ w.date)

/-- database.py `get_mood_entries`. -/
def getMoodEntries (today : Int) (days : Nat) (db : Db) : List MoodRow :=
  List.insertionSort moodGe
    (db.mood_entries.filter fun m => today - (days : Int) ≤ m.date)

/-- database.py `get_sleep_sessions`. -/
def getSleepSessions (today : Int) (days : Nat) (db : Db) : List SleepRow :=
  List.insertionSort sleepGe
    (db.sleep_sessions.filter fun s => today - (days : Int) ≤ s.date)

/-!
JSON values and a parser modelling Python's `json.loads` as used by
nutrition.py.  The grammar covers objects, arrays, strings with the basic
escapes, numbers with optional sign and fraction, and the three literals;
a parse consumes the whole input up to trailing whitespace, exactly as
`json.loads` does.
-/

/-- A JSON value. -/
inductive Json where
  | null
  | bool (b : Bool)
  | num (q : Rat)
  | str (s : String)
  | arr (xs : List Json)
  | obj (fields : List (String × Json))

/-- Opening brace character, written via its code point. -/
def lbrace : Char := Char.ofNat 123

/-- Closing brace character, written via its code point. -/
def rbrace : Char := Char.ofNat 125

/-- Whitespace accepted between JSON tokens (space, tab, LF, CR). -/
def jsonWs (c : Char) : Bool :=
  c == ' ' || c == Char.ofNat 9 || c == Char.ofNat 10 || c == Char.ofNat 13

/-- Skip leading JSON whitespace. -/
def jsonSkipWs : List Char → List Char
  | c :: rest => if jsonWs c then jsonSkipWs rest else c :: rest
  | [] => []

/-- Whitespace stripped by Python `str.strip()` (adds VT and FF). -/
def pyWs (c : Char) : Bool :=
  jsonWs c || c == Char.ofNat 11 || c == Char.ofNat 12

/-- Python `str.strip()`. -/
def trimChars (cs : List Char) : List Char :=
  ((cs.dropWhile pyWs).reverse.dropWhile pyWs).reverse

/-- Parse the remainder of a JSON string literal (after the opening
quote), handling the single-character escapes. -/
def parseStrAux (acc : List Char) : List Char → Option (String × List Char)
  | c :: rest =>
      if c == '"' then some (String.mk acc.reverse, rest)
      else if c == '\\' then
        match rest with
        | d :: rest2 =>
            if d == '"' || d == '\\' || d == '/' then parseStrAux (d :: acc) rest2
            else if d == 'n' then parseStrAux (Char.ofNat 10 :: acc) rest2
            else if d == 't' then parseStrAux (Char.ofNat 9 :: acc) rest2
            else if d == 'r' then parseStrAux (Char.ofNat 13 :: acc) rest2
            else if d == 'b' then parseStrAux (Char.ofNat 8 :: acc) rest2
            else if d == 'f' then parseStrAux (Char.ofNat 12 :: acc) rest2
            else none
        | [] => none
      else parseStrAux (c :: acc) rest
  | [] => none

/-- Consume a run of decimal digits, accumulating their value. -/
def digitsAux (acc : Nat) : List Char → Nat × List Char
  | c :: rest =>
      if c.isDigit then digitsAux (acc * 10 + (c.toNat - 48)) rest
      else (acc, c :: rest)
  | [] => (acc, [])

/-- Parse a JSON number (optional minus, digits, optional fraction). -/
def parseNum (cs : List Char) : Option (Rat × List Char) :=
  let signed : Bool × List Char :=
    match cs with
    | c :: rest => if c == '-' then (true, rest) else (false, cs)
    | [] => (false, [])
  let neg := signed.1
  match signed.2 with
  | c :: rest =>
      if c.isDigit then
        let ip := digitsAux 0 (c :: rest)
        match ip.2 with
        | d :: rest2 =>
            if d == '.' then
              match rest2 with
              | e :: _ =>
                  if e.isDigit then
                    let fp := digitsAux 0 rest2
                    let fracLen := rest2.length - fp.2.length
                    let q : Rat := (ip.1 : Rat) + (fp.1 : Rat) / ((10 : Rat) ^ fracLen)
                    some (if neg then -q else q, fp.2)
                  else none
              | [] => none
            else some (if neg then -(ip.1 : Rat) else (ip.1 : Rat), ip.2)
        | [] => some (if neg then -(ip.1 : Rat) else (ip.1 : Rat), [])
      else none
  | [] => none

mutual

/-- Parse one JSON value, fuel-bounded. -/
def parseVal : Nat → List Char → Option (Json × List Char)
  | 0, _ => none
  | fuel + 1, cs =>
      match jsonSkipWs cs with
      | [] => none
      | c :: rest =>
          if c == '"' then (parseStrAux [] rest).map fun p => (Json.str p.1, p.2)
          else if c == lbrace then parseObjFields fuel rest true []
          else if c == '[' then parseArrElems fuel rest true []
          else if c == 't' then
            match rest with
            | 'r' :: 'u' :: 'e' :: r => some (Json.bool true, r)
            | _ => none
          else if c == 'f' then
            match rest with
            | 'a' :: 'l' :: 's' :: 'e' :: r => some (Json.bool false, r)
            | _ => none
          else if c == 'n' then
            match rest with
            | 'u' :: 'l' :: 'l' :: r => some (Json.null, r)
            | _ => none
          else (parseNum (c :: rest)).map fun p => (Json.num p.1, p.2)

/-- Parse the members of a JSON array after `[`. -/
def parseArrElems : Nat → List Char → Bool → List Json → Option (Json × List Char)
  | 0, _, _, _ => none
  | fuel + 1, cs, first, acc =>
      match jsonSkipWs cs with
      | [] => none
      | c :: rest =>
          if c == ']' && first then some (Json.arr acc.reverse, rest)
          else
            match parseVal fuel (c :: rest) with
            | none => none
            | some (v, r1) =>
                match jsonSkipWs r1 with
                | ',' :: r2 => parseArrElems fuel r2 false (v :: acc)
                | ']' :: r2 => some (Json.arr (v :: acc).reverse, r2)
                | _ => none

/-- Parse the members of a JSON object after the opening brace. -/
def parseObjFields : Nat → List Char → Bool → List (String × Json) → Option (Json × List Char)
  | 0, _, _, _ => none
  | fuel + 1, cs, first, acc =>
      match jsonSkipWs cs with
      | [] => none
      | c :: rest =>
          if c == rbrace && first then some (Json.obj acc.reverse, rest)
          else if c == '"' then
            match parseStrAux [] rest with
            | none => none
            | some (k, r1) =>
                match jsonSkipWs r1 with
                | ':' :: r2 =>
                    match parseVal fuel r2 with
                    | none => none
                    | some (v, r3) =>
                        match jsonSkipWs r3 with
                        | ',' :: r4 => parseObjFields fuel r4 false ((k, v) :: acc)
                        | d :: r4 =>
                            if d == rbrace then some (Json.obj ((k, v) :: acc).reverse, r4)
                            else none
                        | [] => none
                | _ => none
          else none

end

/-- Model of Python `json.loads`: parse one value and require that only
whitespace remains. -/
def jsonLoads (cs : List Char) : Option Json :=
  match parseVal (2 * cs.length + 2) cs with
  | some (j, rest) => if (jsonSkipWs rest).isEmpty then some j else none
  | none => none

/-- First index at which `pat` occurs as a contiguous sublist
(Python `str.index` / `in`). -/
def subIndex (pat : List Char) : List Char → Option Nat
  | [] => if pat.isEmpty then some 0 else none
  | c :: rest =>
      if pat.isPrefixOf (c :: rest) then some 0
      else (subIndex pat rest).map (· + 1)

/-- The fence marker, as character list. -/
def fencePat : List Char := "```".data

/-- The json fence marker, as character list. -/
def fenceJsonPat : List Char := "```json".data

/-- Outcome of one fenced-block strategy inside `_extract_json`:
the pattern may be absent, the closing fence may be missing (in which case
Python's `text.index` raises *outside* any try block), or the enclosed
block parses or fails to parse. -/
inductive FenceStep where
  | absent
  | raised
  | parsed (j : Json)
  | failed

/-- One fenced-block extraction attempt of nutrition.py `_extract_json`:
find `pat`, skip `pad` characters, find the closing fence, strip and
parse the block. -/
def fenceStep (pat : List Char) (pad : Nat) (cs : List Char) : FenceStep :=
  match subIndex pat cs with
  | none => .absent
  | some i =>
      match subIndex fencePat (cs.drop (i + pad)) with
      | none => .raised
      | some e =>
          match jsonLoads (trimChars ((cs.drop (i + pad)).take e)) with
          | some j => .parsed j
          | none => .failed

/-- Decidable test that a fenced-block strategy cannot raise: either the
pattern is absent or a closing fence follows it. -/
def fenceCloses (pat : List Char) (pad : Nat) (cs : List Char) : Bool :=
  match subIndex pat cs with
  | none => true
  | some i => (subIndex fencePat (cs.drop (i + pad))).isSome

/-- The outermost-brace strategy of `_extract_json`: slice from the first
brace to the last closing brace and parse. -/
def braceParse (cs : List Char) : Option Json :=
  match subIndex [lbrace] cs, subIndex [rbrace] cs.reverse with
  | some bs, some rev =>
      let be := cs.length - 1 - rev
      jsonLoads ((cs.drop bs).take (be + 1 - bs))
  | _, _ => none

/-- Errors surfaced by `_extract_json` (both are `ValueError` in Python:
`unclosedFence` from the unguarded `text.index`, `notFound` from the
final `raise`). -/
inductive ExtractError where
  | unclosedFence
  | notFound
deriving DecidableEq

/-- nutrition.py `_extract_json`: strip, try a direct parse, then the
```json fenced block, then any fenced block, then the outermost braces;
an unclosed fence raises before later strategies are tried. -/
def extractJson (text : String) : Except ExtractError Json :=
  let cs := trimChars text.data
  match jsonLoads cs with
  | some j => .ok j
  | none =>
      match fenceStep fenceJsonPat 7 cs with
      | .parsed j => .ok j
      | .raised => .error .unclosedFence
      | _ =>
          match fenceStep fencePat 3 cs with
          | .parsed j => .ok j
          | .raised => .error .unclosedFence
          | _ =>
              match braceParse cs with
              | some j => .ok j
              | none => .error .notFound

/-- The extraction chain as the spec words it: the first success among
direct parse, fenced-block extraction and outermost-brace extraction,
`none` when all fail.  Stated for comparison with `extractJson`. -/
def specExtract (text : String) : Option Json :=
  let cs := trimChars text.data
  match jsonLoads cs with
  | some j => some j
  | none =>
      match fenceStep fenceJsonPat 7 cs with
      | .parsed j => some j
      | _ =>
          match fenceStep fencePat 3 cs with
          | .parsed j => some j
          | _ => braceParse cs

/-!
Model of the nutrition analysis path (nutrition.py `analyze_nutrition`
and database.py `store_meal_entry`).  The gateway call is an external
collaborator; its raw textual response is an input of the model.
-/

/-- Python `dict.get` on a parsed JSON object (`json.loads` keeps the
last value of a duplicated key). -/
def lookupLast (fields : List (String × Json)) (k : String) : Option Json :=
  (fields.reverse.find? fun f => f.1 = k).map (·.2)

/-- Python `float(x)` on a JSON value already known to be numeric;
non-numeric values are read as `0` (the claims never exercise the
`TypeError` path of `float`). -/
def toRat : Option Json → Rat
  | some (.num q) => q
  | _ => 0

/-- Python `str` read with a default, as in `data.get("description", text)`. -/
def toStr (o : Option Json) (dflt : String) : String :=
  match o with
  | some (.str s) => s
  | _ => dflt

/-- One row of the `meal_entries` table. -/
structure MealRow where
  id : Nat
  date : Int
  timestamp : PyDateTime
  description : String
  analysis_json : String
  total_calories : Option Rat
  total_protein_g : Option Rat
  total_carbs_g : Option Rat
  total_fat_g : Option Rat
  food_items_json : List Json

/-- One row of the `meal_nutrients` table. -/
structure NutrientRow where
  meal_entry_id : Nat
  nutrient_name : String
  amount : Rat
  unit : String

/-- The nutrition portion of the database. -/
structure MealDb where
  meal_entries : List MealRow
  meal_nutrients : List NutrientRow

/-- database.py `store_meal_entry`: insert the meal row and its nutrient
child rows, returning the new id (AUTOINCREMENT, modelled from a fresh
database as one more than the current row count). -/
def storeMealEntry (date : Int) (timestamp : PyDateTime) (description : String)
    (analysis_json : String) (total_calories total_protein_g total_carbs_g total_fat_g : Option Rat)
    (nutrients : List (String × Rat × String)) (food_items_json : List Json)
    (db : MealDb) : Nat × MealDb :=
  let meal_id := db.meal_entries.length + 1
  ( meal_id,
    { meal_entries := db.meal_entries ++
        [{ id := meal_id, date := date, timestamp := timestamp,
           description := description, analysis_json := analysis_json,
           total_calories := total_calories, total_protein_g := total_protein_g,
           total_carbs_g := total_carbs_g, total_fat_g := total_fat_g,
           food_items_json := food_items_json }]
      meal_nutrients := db.meal_nutrients ++ nutrients.map fun n =>
        { meal_entry_id := meal_id, nutrient_name := n.1, amount := n.2.1, unit := n.2.2 } } )

/-- The HealthKit identifier table of nutrition.py (`hk_name_map`). -/
def hkNameMap : String → Option (String × String)
  | "dietaryEnergyConsumed" => some ("Energy", "kcal")
  | "dietaryProtein" => some ("Protein", "g")
  | "dietaryCarbohydrates" => some ("Carbohydrates", "g")
  | "dietaryFatTotal" => some ("Fat Total", "g")
  | "dietaryFatSaturated" => some ("Saturated Fat", "g")
  | "dietaryFiber" => some ("Fiber", "g")
  | "dietarySugar" => some ("Sugar", "g")
  | "dietarySodium" => some ("Sodium", "mg")
  | "dietaryCholesterol" => some ("Cholesterol", "mg")
  | "dietaryCalcium" => some ("Calcium", "mg")
  | "dietaryIron" => some ("Iron", "mg")
  | "dietaryVitaminC" => some ("Vitamin C", "mg")
  | "dietaryVitaminD" => some ("Vitamin D", "IU")
  | "dietaryPotassium" => some ("Potassium", "mg")
  | "dietaryMagnesium" => some ("Magnesium", "mg")
  | "dietaryVitaminA" => some ("Vitamin A", "IU")
  | "dietaryVitaminB6" => some ("Vitamin B6", "mg")
  | "dietaryVitaminB12" => some ("Vitamin B12", "mcg")
  | "dietaryFolate" => some ("Folate", "mcg")
  | "dietaryZinc" => some ("Zinc", "mg")
  | _ => none

/-- Totals block of the structured response (models.py `NutritionTotals`). -/
structure NutritionTotals where
  calories : Rat
  protein_g : Rat
  carbs_g : Rat
  fat_g : Rat
  fiber_g : Rat
  sugar_g : Rat
  sodium_mg : Rat

/-- Structured response of `analyze_nutrition` (models.py
`NutritionAnalysisResponse`; food items kept as raw JSON values, which
determine the derived `FoodItem` list). -/
structure NutritionResponse where
  meal_id : Nat
  timestamp : PyDateTime
  description : String
  food_items : List Json
  totals : NutritionTotals
  healthkit_samples : List Json

/-- Failures of `analyze_nutrition` before any storage happens. -/
inductive AnalyzeError where
  | parse (e : ExtractError)
  | notDict
deriving DecidableEq

/-- nutrition.py `analyze_nutrition` after the gateway call: extract the
JSON from `raw`, shape the response, store the meal entry and its
flattened nutrient rows.  On an extraction failure the error propagates
and the database is returned unchanged. -/
def analyzeNutrition (text raw : String) (now : PyDateTime) (db : MealDb) :
    Except AnalyzeError NutritionResponse × MealDb :=
  match extractJson raw with
  | .error e => (.error (.parse e), db)
  | .ok data =>
      match data with
      | .obj fields =>
          let totalsFields : List (String × Json) :=
            match lookupLast fields "totals" with
            | some (.obj tfs) => tfs
            | _ => []
          let totals : NutritionTotals :=
            { calories := toRat (lookupLast totalsFields "calories")
              protein_g := toRat (lookupLast totalsFields "protein_g")
              carbs_g := toRat (lookupLast totalsFields "carbs_g")
              fat_g := toRat (lookupLast totalsFields "fat_g")
              fiber_g := toRat (lookupLast totalsFields "fiber_g")
              sugar_g := toRat (lookupLast totalsFields "sugar_g")
              sodium_mg := toRat (lookupLast totalsFields "sodium_mg") }
          let food_items : List Json :=
            match lookupLast fields "food_items" with
            | some (.arr xs) => xs
            | _ => []
          let samples : List Json :=
            match lookupLast fields "healthkit_samples" with
            | some (.arr xs) => xs
            | _ => []
          let description := toStr (lookupLast fields "description") text
          let all_nutrients : List (String × Rat × String) :=
            samples.filterMap fun sample =>
              match sample with
              | .obj sf =>
                  match lookupLast sf "identifier" with
                  | some (.str ident) =>
                      (hkNameMap ident).map fun nu =>
                        (nu.1, toRat (lookupLast sf "value"), nu.2)
                  | _ => none
              | _ => none
          let stored := storeMealEntry now.day now description raw
            (some totals.calories) (some totals.protein_g) (some totals.carbs_g)
            (some totals.fat_g) all_nutrients food_items db
          ( .ok { meal_id := stored.1, timestamp := now, description := description,
                  food_items := food_items, totals := totals,
                  healthkit_samples := samples },
            stored.2 )
      | _ => (.error .notDict, db)

/-- An empty nutrition database. -/
def emptyMealDb : MealDb :=
  { meal_entries := [], meal_nutrients := [] }

/-!
Concrete instances used by the counterexamples and witnesses below.
Day indices: a timestamp `⟨t⟩` lies on day `t.fdiv 1440`, so `⟨120⟩` is
day `0` and `⟨-540⟩` is day `-1`.
-/

/-- A `daily_summary` row with every nullable column NULL. -/
def blankSummary (d : Int) : SummaryRow :=
  { date := d, steps := none, distance_km := none, active_calories := none,
    exercise_minutes := none, stand_hours := none, flights_climbed := none,
    resting_hr := none, avg_hr := none, hrv_sdnn := none,
    sleep_duration_min := none, deep_sleep_min := none, rem_sleep_min := none,
    core_sleep_min := none, awake_min := none, weight_kg := none,
    body_fat_pct := none, body_battery := none, mood_avg_valence := none,
    workout_count := none, workout_minutes := none, workout_calories := none,
    mindfulness_minutes := none, blood_oxygen_pct := none, respiratory_rate := none }

/-- Payload carrying only `activity.steps = 8000` for day 0. -/
def c1pA : HealthSyncPayload :=
  { device_id := "phone", synced_at := ⟨100⟩, period_from := ⟨0⟩, period_to := ⟨100⟩,
    activity := some { steps := some 8000 } }

/-- Payload carrying only `heart.resting_hr = 55` for day 0. -/
def c1pB : HealthSyncPayload :=
  { device_id := "phone", synced_at := ⟨200⟩, period_from := ⟨0⟩, period_to := ⟨110⟩,
    heart := some { resting_hr := some 55 } }

/-- Overnight sleep session of 420 minutes ending on day 0. -/
def c2s420 : SleepSession :=
  { start := ⟨-540⟩, end_ := ⟨120⟩, total_duration_min := 420 }

/-- Short overlapping session of 90 minutes also ending on day 0. -/
def c2s90 : SleepSession :=
  { start := ⟨60⟩, end_ := ⟨150⟩, total_duration_min := 90 }

/-- First sync of the night: the long session alone. -/
def c2p1 : HealthSyncPayload :=
  { device_id := "phone", synced_at := ⟨400⟩, period_from := ⟨-840⟩, period_to := ⟨300⟩,
    sleep := [c2s420] }

/-- Second sync of the same night: the short session alone. -/
def c2p2 : HealthSyncPayload :=
  { device_id := "watch", synced_at := ⟨410⟩, period_from := ⟨-840⟩, period_to := ⟨300⟩,
    sleep := [c2s90] }

/-- Both overlapping sessions submitted within one payload. -/
def c2pBoth : HealthSyncPayload :=
  { device_id := "phone", synced_at := ⟨400⟩, period_from := ⟨-840⟩, period_to := ⟨300⟩,
    sleep := [c2s420, c2s90] }

/-- A summary row dated ten days in the past relative to day 0. -/
def c3row : SummaryRow :=
  { blankSummary (-10) with steps := some 1 }

/-- Database whose only summary row is ten days old. -/
def c3db : Db :=
  { emptyDb with daily_summary := [c3row] }

/-- Summary row on day 5. -/
def c3wr5 : SummaryRow :=
  { blankSummary 5 with steps := some 5 }

/-- Summary row on day 3. -/
def c3wr3 : SummaryRow :=
  { blankSummary 3 with steps := some 3 }

/-- Workout row on day 0. -/
def c3wWorkout : WorkoutRow :=
  { date := 0, workout_type := "run", start_time := ⟨600⟩, end_time := ⟨640⟩,
    duration_min := 40, distance_km := none, active_calories := none,
    avg_hr := none, max_hr := none, elevation_gain_m := none }

/-- Database with two summary rows and one workout. -/
def c3wdb : Db :=
  { emptyDb with daily_summary := [c3wr3, c3wr5], workouts := [c3wWorkout] }

/-- Gateway reply with an opening json fence but no closing fence, yet a
parseable brace substring. -/
def c4text : String := "answer: ```json \x7b\"a\": 1\x7d"

/-- Well-fenced gateway reply. -/
def c4wt : String := "```json\n\x7b\"a\": 1\x7d\n```"

/-- Payload for day 0 with steps. -/
def c5p : HealthSyncPayload :=
  { device_id := "phone", synced_at := ⟨100⟩, period_from := ⟨0⟩, period_to := ⟨100⟩,
    activity := some { steps := some 100 } }

/-- Payload for day 1 with steps. -/
def c5q : HealthSyncPayload :=
  { device_id := "phone", synced_at := ⟨1500⟩, period_from := ⟨1440⟩, period_to := ⟨1500⟩,
    activity := some { steps := some 200 } }

/-- Initial submission of a sleep session. -/
def c6s1 : SleepSession :=
  { start := ⟨-540⟩, end_ := ⟨100⟩, total_duration_min := 400 }

/-- Resubmission with the same (date, start_time) key but corrected end
time and durations. -/
def c6s2 : SleepSession :=
  { start := ⟨-540⟩, end_ := ⟨120⟩, total_duration_min := 420,
    in_bed_duration_min := some 450 }

/-- Payload carrying the initial session. -/
def c6p1 : HealthSyncPayload :=
  { device_id := "phone", synced_at := ⟨200⟩, period_from := ⟨-840⟩, period_to := ⟨300⟩,
    sleep := [c6s1] }

/-- Payload carrying the resubmission. -/
def c6p2 : HealthSyncPayload :=
  { device_id := "watch", synced_at := ⟨210⟩, period_from := ⟨-840⟩, period_to := ⟨300⟩,
    sleep := [c6s2] }

/-- Database state after the initial submission. -/
def c6db : Db := storeSync c6p1 emptyDb

/-- Database with one summary row on day 0. -/
def c7db : Db :=
  { emptyDb with daily_summary := [blankSummary 0] }

/-- Payload with one workout of 40 minutes. -/
def c9p : HealthSyncPayload :=
  { device_id := "phone", synced_at := ⟨700⟩, period_from := ⟨0⟩, period_to := ⟨700⟩,
    workouts := [{ workout_type := "run", start := ⟨600⟩, end_ := ⟨640⟩, duration_min := 40 }] }

/-- Payload with no workouts, for the frame part of claim 9. -/
def c9p2 : HealthSyncPayload :=
  { device_id := "phone", synced_at := ⟨800⟩, period_from := ⟨0⟩, period_to := ⟨800⟩,
    heart := some { resting_hr := some 60 } }

/-- Sleep session ending on day 5, away from its payload's period. -/
def c10s : SleepSession :=
  { start := ⟨6700⟩, end_ := ⟨7300⟩, total_duration_min := 600 }

/-- Payload for day 0 carrying the day-5 session. -/
def c10p : HealthSyncPayload :=
  { device_id := "phone", synced_at := ⟨100⟩, period_from := ⟨0⟩, period_to := ⟨100⟩,
    sleep := [c10s] }


/-- The dates touched by a payload's list records (sleep by wake-up date,
workouts and mindfulness by start date, mood by sample date). -/
def recordDays (p : HealthSyncPayload) : List Int :=
  p.sleep.map (fun s => s.end_.day) ++ p.workouts.map (fun w => w.start.day) ++
    p.mood.map (fun m => m.timestamp.day) ++ p.mindfulness.map (fun m => m.start.day)

/-- No duplicate (date, start_time) keys in the sleep table. -/
def sleepNodup (db : Db) : Prop :=
  (db.sleep_sessions.map sleepKey).Nodup

/-- The nine `daily_summary` columns written through the `x or None`
coercion are not stored as 0. -/
def zeroFreeRow (r : SummaryRow) : Prop :=
  r.workout_count ≠ some 0 ∧ r.workout_minutes ≠ some 0 ∧
  r.workout_calories ≠ some 0 ∧ r.mindfulness_minutes ≠ some 0 ∧
  r.sleep_duration_min ≠ some 0 ∧ r.deep_sleep_min ≠ some 0 ∧
  r.rem_sleep_min ≠ some 0 ∧ r.core_sleep_min ≠ some 0 ∧ r.awake_min ≠ some 0

/-- All summary rows of the database satisfy `zeroFreeRow`. -/
def zeroFreeDb (db : Db) : Prop :=
  ∀ r ∈ db.daily_summary, zeroFreeRow r

/-!
Lemmas about the daily-summary upsert.
-/

@[simp] theorem coal_none {α : Type} (o : Option α) : coal none o = o := rfl

@[simp] theorem coal_some {α : Type} (v : α) (o : Option α) :
    coal (some v) o = some v := rfl

@[simp] theorem mergeRow_date (delta old : SummaryRow) :
    (mergeRow delta old).date = old.date := rfl

theorem summaryAt_upsert_other (delta : SummaryRow) (rows : List SummaryRow)
    (d : Int) (h : delta.date ≠ d) :
    summaryAt (upsertSummary delta rows) d = summaryAt rows d := by
  induction rows with
  | nil => simp [upsertSummary, summaryAt, h]
  | cons r rs ih =>
      simp only [upsertSummary]
      by_cases h1 : r.date = delta.date
      · have hr : ¬ r.date = d := fun hc => h (h1.symm.trans hc)
        rw [if_pos h1]
        simp only [summaryAt, mergeRow_date]
        rw [if_neg hr, if_neg hr]
      · rw [if_neg h1]
        simp only [summaryAt]
        by_cases h2 : r.date = d
        · rw [if_pos h2, if_pos h2]
        · rw [if_neg h2, if_neg h2, ih]

theorem summaryAt_upsert_self (delta : SummaryRow) (rows : List SummaryRow) :
    summaryAt (upsertSummary delta rows) delta.date =
      some (match summaryAt rows delta.date with
            | some r => mergeRow delta r
            | none => delta) := by
  induction rows with
  | nil => simp [upsertSummary, summaryAt]
  | cons r rs ih =>
      simp only [upsertSummary]
      by_cases h1 : r.date = delta.date
      · rw [if_pos h1]
        simp only [summaryAt, mergeRow_date]
        rw [if_pos h1, if_pos h1]
      · rw [if_neg h1]
        simp only [summaryAt]
        rw [if_neg h1, if_neg h1, ih]

/-- The `daily_summary` column of any row is unchanged by `store_sync`
whenever the payload contributes NULL for that column (the COALESCE merge
keeps the stored value, and a fresh row stores NULL). -/
theorem sField_storeSync_of_none {α : Type} (p : HealthSyncPayload) (db : Db)
    (d : Int) (f : SummaryRow → Option α)
    (hf : ∀ x y, f (mergeRow x y) = coal (f x) (f y))
    (hd : f (mkSummaryDelta p) = none) :
    sField (storeSync p db) d f = sField db d f := by
  show (summaryAt (upsertSummary (mkSummaryDelta p) db.daily_summary) d).bind f =
    (summaryAt db.daily_summary d).bind f
  by_cases hdd : (mkSummaryDelta p).date = d
  · subst hdd
    rw [summaryAt_upsert_self]
    cases hs : summaryAt db.daily_summary (mkSummaryDelta p).date with
    | none => simp [hd]
    | some r => simp [hf, hd]
  · rw [summaryAt_upsert_other _ _ _ hdd]

theorem dateSleeps_of_sleep_nil (p : HealthSyncPayload) (h : p.sleep = []) :
    dateSleeps p = [] := by
  simp [dateSleeps, h]

theorem delta_sleep_fields_none (p : HealthSyncPayload) (h : dateSleeps p = []) :
    (mkSummaryDelta p).sleep_duration_min = none ∧
    (mkSummaryDelta p).deep_sleep_min = none ∧
    (mkSummaryDelta p).rem_sleep_min = none ∧
    (mkSummaryDelta p).core_sleep_min = none ∧
    (mkSummaryDelta p).awake_min = none := by
  simp [mkSummaryDelta, h, maxByDuration, ratOrNone]

/-- C1.  For every sync payload and every scalar field of the DailySummary
row, if the category carrying that field is entirely absent from the
payload then the stored value of that field after `store_sync` equals its
value before `store_sync` (stated for the row of every date `d`, which
includes the payload's `period_to` date). -/
theorem claim1_absent_category_never_nulls (p : HealthSyncPayload) (db : Db) (d : Int) :
    (p.activity = none →
      sField (storeSync p db) d (·.steps) = sField db d (·.steps) ∧
      sField (storeSync p db) d (·.distance_km) = sField db d (·.distance_km) ∧
      sField (storeSync p db) d (·.active_calories) = sField db d (·.active_calories) ∧
      sField (storeSync p db) d (·.exercise_minutes) = sField db d (·.exercise_minutes) ∧
      sField (storeSync p db) d (·.stand_hours) = sField db d (·.stand_hours) ∧
      sField (storeSync p db) d (·.flights_climbed) = sField db d (·.flights_climbed)) ∧
    (p.heart = none →
      sField (storeSync p db) d (·.resting_hr) = sField db d (·.resting_hr) ∧
      sField (storeSync p db) d (·.avg_hr) = sField db d (·.avg_hr) ∧
      sField (storeSync p db) d (·.hrv_sdnn) = sField db d (·.hrv_sdnn)) ∧
    (p.sleep = [] →
      sField (storeSync p db) d (·.sleep_duration_min) = sField db d (·.sleep_duration_min) ∧
      sField (storeSync p db) d (·.deep_sleep_min) = sField db d (·.deep_sleep_min) ∧
      sField (storeSync p db) d (·.rem_sleep_min) = sField db d (·.rem_sleep_min) ∧
      sField (storeSync p db) d (·.core_sleep_min) = sField db d (·.core_sleep_min) ∧
      sField (storeSync p db) d (·.awake_min) = sField db d (·.awake_min)) ∧
    (p.body = none →
      sField (storeSync p db) d (·.weight_kg) = sField db d (·.weight_kg) ∧
      sField (storeSync p db) d (·.body_fat_pct) = sField db d (·.body_fat_pct)) ∧
    (p.vitals = none →
      sField (storeSync p db) d (·.blood_oxygen_pct) = sField db d (·.blood_oxygen_pct) ∧
      sField (storeSync p db) d (·.respiratory_rate) = sField db d (·.respiratory_rate)) ∧
    (p.body_battery = none →
      sField (storeSync p db) d (·.body_battery) = sField db d (·.body_battery)) ∧
    (p.mood = [] →
      sField (storeSync p db) d (·.mood_avg_valence) = sField db d (·.mood_avg_valence)) ∧
    (p.workouts = [] →
      sField (storeSync p db) d (·.workout_count) = sField db d (·.workout_count) ∧
      sField (storeSync p db) d (·.workout_minutes) = sField db d (·.workout_minutes) ∧
      sField (storeSync p db) d (·.workout_calories) = sField db d (·.workout_calories)) ∧
    (p.mindfulness = [] →
      sField (storeSync p db) d (·.mindfulness_minutes) = sField db d (·.mindfulness_minutes)) := by
  refine ⟨fun h => ⟨?_, ?_, ?_, ?_, ?_, ?_⟩, fun h => ⟨?_, ?_, ?_⟩, fun h => ?_,
    fun h => ⟨?_, ?_⟩, fun h => ⟨?_, ?_⟩, fun h => ?_, fun h => ?_,
    fun h => ⟨?_, ?_, ?_⟩, fun h => ?_⟩
  · exact sField_storeSync_of_none p db d (·.steps) (fun x y => rfl)
      (by simp [mkSummaryDelta, h])
  · exact sField_storeSync_of_none p db d (·.distance_km) (fun x y => rfl)
      (by simp [mkSummaryDelta, h])
  · exact sField_storeSync_of_none p db d (·.active_calories) (fun x y => rfl)
      (by simp [mkSummaryDelta, h])
  · exact sField_storeSync_of_none p db d (·.exercise_minutes) (fun x y => rfl)
      (by simp [mkSummaryDelta, h])
  · exact sField_storeSync_of_none p db d (·.stand_hours) (fun x y => rfl)
      (by simp [mkSummaryDelta, h])
  · exact sField_storeSync_of_none p db d (·.flights_climbed) (fun x y => rfl)
      (by simp [mkSummaryDelta, h])
  · exact sField_storeSync_of_none p db d (·.resting_hr) (fun x y => rfl)
      (by simp [mkSummaryDelta, h])
  · exact sField_storeSync_of_none p db d (·.avg_hr) (fun x y => rfl)
      (by simp [mkSummaryDelta, h])
  · exact sField_storeSync_of_none p db d (·.hrv_sdnn) (fun x y => rfl)
      (by simp [mkSummaryDelta, h])
  · obtain ⟨h1, h2, h3, h4, h5⟩ := delta_sleep_fields_none p (dateSleeps_of_sleep_nil p h)
    exact ⟨sField_storeSync_of_none p db d (·.sleep_duration_min) (fun x y => rfl) h1,
      sField_storeSync_of_none p db d (·.deep_sleep_min) (fun x y => rfl) h2,
      sField_storeSync_of_none p db d (·.rem_sleep_min) (fun x y => rfl) h3,
      sField_storeSync_of_none p db d (·.core_sleep_min) (fun x y => rfl) h4,
      sField_storeSync_of_none p db d (·.awake_min) (fun x y => rfl) h5⟩
  · exact sField_storeSync_of_none p db d (·.weight_kg) (fun x y => rfl)
      (by simp [mkSummaryDelta, h])
  · exact sField_storeSync_of_none p db d (·.body_fat_pct) (fun x y => rfl)
      (by simp [mkSummaryDelta, h])
  · exact sField_storeSync_of_none p db d (·.blood_oxygen_pct) (fun x y => rfl)
      (by simp [mkSummaryDelta, h])
  · exact sField_storeSync_of_none p db d (·.respiratory_rate) (fun x y => rfl)
      (by simp [mkSummaryDelta, h])
  · exact sField_storeSync_of_none p db d (·.body_battery) (fun x y => rfl)
      (by simp [mkSummaryDelta, h])
  · exact sField_storeSync_of_none p db d (·.mood_avg_valence) (fun x y => rfl)
      (by simp [mkSummaryDelta, h])
  · exact sField_storeSync_of_none p db d (·.workout_count) (fun x y => rfl)
      (by simp [mkSummaryDelta, h, natOrNone])
  · exact sField_storeSync_of_none p db d (·.workout_minutes) (fun x y => rfl)
      (by simp [mkSummaryDelta, h, ratOrNone])
  · exact sField_storeSync_of_none p db d (·.workout_calories) (fun x y => rfl)
      (by simp [mkSummaryDelta, h, ratOrNone])
  · exact sField_storeSync_of_none p db d (·.mindfulness_minutes) (fun x y => rfl)
      (by simp [mkSummaryDelta, h, ratOrNone])

/-- C1 witness: syncing steps 8000 for day 0 and then a heart-only payload
for day 0 leaves steps at 8000 while setting the heart field. -/
theorem claim1_witness :
    sField (storeSync c1pB (storeSync c1pA emptyDb)) 0 (·.steps) =
      sField (storeSync c1pA emptyDb) 0 (·.steps) ∧
    sField (storeSync c1pA emptyDb) 0 (·.steps) = some 8000 ∧
    sField (storeSync c1pB (storeSync c1pA emptyDb)) 0 (·.resting_hr) = some 55 := by
  refine ⟨?_, by decide, by decide⟩
  exact (claim1_absent_category_never_nulls c1pB (storeSync c1pA emptyDb) 0).1 (by decide) |>.1


/-- C5.  For payloads with different `period_to` dates (and disjoint
record date ranges), applying `store_sync` in either order yields the
same DailySummary rows: the same date-to-row mapping. -/
theorem claim5_disjoint_commute (p q : HealthSyncPayload) (db : Db)
    (hpq : p.period_to.day ≠ q.period_to.day)
    (hrec : ∀ x, x ∈ recordDays p → x ∉ recordDays q) :
    ∀ d, summaryAt (storeSync q (storeSync p db)).daily_summary d =
      summaryAt (storeSync p (storeSync q db)).daily_summary d := by
  intro d
  have ha : (mkSummaryDelta p).date = p.period_to.day := rfl
  have hb : (mkSummaryDelta q).date = q.period_to.day := rfl
  have hab : (mkSummaryDelta p).date ≠ (mkSummaryDelta q).date := by
    rw [ha, hb]; exact hpq
  show summaryAt (upsertSummary (mkSummaryDelta q)
      (upsertSummary (mkSummaryDelta p) db.daily_summary)) d =
    summaryAt (upsertSummary (mkSummaryDelta p)
      (upsertSummary (mkSummaryDelta q) db.daily_summary)) d
  by_cases hd1 : (mkSummaryDelta p).date = d
  · subst hd1
    rw [summaryAt_upsert_other _ _ _ (fun hc => hab hc.symm),
      summaryAt_upsert_self, summaryAt_upsert_self,
      summaryAt_upsert_other _ _ _ (fun hc => hab hc.symm)]
  · by_cases hd2 : (mkSummaryDelta q).date = d
    · subst hd2
      rw [summaryAt_upsert_self, summaryAt_upsert_other _ _ _ hab,
        summaryAt_upsert_other _ _ _ hd1, summaryAt_upsert_self]
    · rw [summaryAt_upsert_other _ _ _ hd2, summaryAt_upsert_other _ _ _ hd1,
        summaryAt_upsert_other _ _ _ hd1, summaryAt_upsert_other _ _ _ hd2]

/-- C5 witness: two concrete payloads for day 0 and day 1 commute, and
the day-0 row keeps its steps either way. -/
theorem claim5_witness :
    summaryAt (storeSync c5q (storeSync c5p emptyDb)).daily_summary 0 =
      summaryAt (storeSync c5p (storeSync c5q emptyDb)).daily_summary 0 ∧
    sField (storeSync c5q (storeSync c5p emptyDb)) 0 (·.steps) = some 100 := by
  refine ⟨?_, by decide⟩
  exact claim5_disjoint_commute c5p c5q emptyDb (by decide) (by decide) 0

/-- When the payload contributes a non-null value for a column, that
value is stored on the target row regardless of the previous state
(COALESCE prefers `excluded`). -/
theorem sField_storeSync_target {α : Type} (p : HealthSyncPayload) (db : Db)
    (f : SummaryRow → Option α) (v : α)
    (hf : ∀ x y, f (mergeRow x y) = coal (f x) (f y))
    (hd : f (mkSummaryDelta p) = some v) :
    sField (storeSync p db) (mkSummaryDelta p).date f = some v := by
  show (summaryAt (upsertSummary (mkSummaryDelta p) db.daily_summary)
    (mkSummaryDelta p).date).bind f = some v
  rw [summaryAt_upsert_self]
  cases hs : summaryAt db.daily_summary (mkSummaryDelta p).date with
  | none => simp [hd]
  | some r => simp [hf, hd]

/-- C2 counterexample: syncing the 420-minute session for day 0 and then,
in a second payload, the overlapping 90-minute session for the same day
leaves `sleep_duration_min = 90`, not the greater duration 420 — the
claim fails for sessions submitted across successive payloads. -/
theorem claim2_counterexample :
    sField (storeSync c2p2 (storeSync c2p1 emptyDb)) 0 (·.sleep_duration_min) = some 90 ∧
    sField (storeSync c2p2 (storeSync c2p1 emptyDb)) 0 (·.sleep_duration_min) ≠ some 420 ∧
    c2s420.total_duration_min = 420 ∧ c2s90.total_duration_min = 90 ∧
    c2s420.end_.day = 0 ∧ c2s90.end_.day = 0 := by
  refine ⟨by decide, by decide, by decide, by decide, by decide, by decide⟩

/-- C2 (amended).  When two overlapping sessions with the same end-date
arrive **within one payload**, the stored `sleep_duration_min` is the
`total_duration_min` of the longer session — never their sum.  When they
arrive in **successive payloads**, each payload's non-zero sleep total
overwrites the stored one, so the final value is the duration of the
session in the later payload (the greater duration only if the longer
session is submitted last or together with the shorter one). -/
theorem claim2_longest_session_amended :
    (∀ (db : Db) (p : HealthSyncPayload) (a b : SleepSession),
      (p.sleep = [a, b] ∨ p.sleep = [b, a]) →
      a.end_.day = p.period_to.day →
      b.end_.day = p.period_to.day →
      b.total_duration_min < a.total_duration_min →
      0 < b.total_duration_min →
      sField (storeSync p db) p.period_to.day (·.sleep_duration_min) =
        some a.total_duration_min ∧
      sField (storeSync p db) p.period_to.day (·.sleep_duration_min) ≠
        some (a.total_duration_min + b.total_duration_min)) ∧
    (∀ (db : Db) (p1 p2 : HealthSyncPayload) (a b : SleepSession),
      p1.sleep = [a] → p2.sleep = [b] →
      a.end_.day = p1.period_to.day →
      b.end_.day = p2.period_to.day →
      0 < b.total_duration_min →
      sField (storeSync p2 (storeSync p1 db)) p2.period_to.day (·.sleep_duration_min) =
        some b.total_duration_min) := by
  constructor
  · intro db p a b hor ha hb hba hb0
    have ha0 : a.total_duration_min ≠ 0 := ne_of_gt (lt_trans hb0 hba)
    have hmax : maxByDuration (dateSleeps p) = some a := by
      rcases hor with h | h
      · have hds : dateSleeps p = [a, b] := by simp [dateSleeps, h, ha, hb]
        rw [hds]
        show some (if a.total_duration_min < b.total_duration_min then b else a) = some a
        rw [if_neg (lt_asymm hba)]
      · have hds : dateSleeps p = [b, a] := by simp [dateSleeps, h, ha, hb]
        rw [hds]
        show some (if b.total_duration_min < a.total_duration_min then a else b) = some a
        rw [if_pos hba]
    have hδ : (mkSummaryDelta p).sleep_duration_min = some a.total_duration_min := by
      simp [mkSummaryDelta, hmax, ratOrNone, ha0]
    have hmain : sField (storeSync p db) p.period_to.day (·.sleep_duration_min) =
        some a.total_duration_min :=
      sField_storeSync_target p db (·.sleep_duration_min) _ (fun x y => rfl) hδ
    refine ⟨hmain, ?_⟩
    rw [hmain]
    intro hc
    have := Option.some.inj hc
    have hbz : b.total_duration_min = 0 := by
      have := self_eq_add_right.mp this
      exact this
    exact ne_of_gt hb0 hbz
  · intro db p1 p2 a b h1 h2 ha hb hb0
    have hb0' : b.total_duration_min ≠ 0 := ne_of_gt hb0
    have hds : dateSleeps p2 = [b] := by simp [dateSleeps, h2, hb]
    have hδ : (mkSummaryDelta p2).sleep_duration_min = some b.total_duration_min := by
      simp [mkSummaryDelta, hds, maxByDuration, ratOrNone, hb0']
    exact sField_storeSync_target p2 (storeSync p1 db) (·.sleep_duration_min) _
      (fun x y => rfl) hδ

/-- C2 witness: the 420/90 pair within one payload stores 420; the same
pair across successive payloads (short one last) stores 90. -/
theorem claim2_witness :
    sField (storeSync c2pBoth emptyDb) c2pBoth.period_to.day (·.sleep_duration_min) =
      some c2s420.total_duration_min ∧
    sField (storeSync c2p2 (storeSync c2p1 emptyDb)) c2p2.period_to.day (·.sleep_duration_min) =
      some c2s90.total_duration_min ∧
    c2pBoth.period_to.day = 0 ∧ c2s420.total_duration_min = 420 ∧
    c2s90.total_duration_min = 90 := by
  refine ⟨?_, ?_, by decide, by decide, by decide⟩
  · exact (claim2_longest_session_amended.1 emptyDb c2pBoth c2s420 c2s90 (Or.inl rfl)
      (by decide) (by decide) (by decide) (by decide)).1
  · exact claim2_longest_session_amended.2 emptyDb c2p1 c2p2 c2s420 c2s90 rfl rfl
      (by decide) (by decide) (by decide)

/-- C3 counterexample: with a single summary row dated ten days before
`today = 0`, `get_daily_summaries(1)` returns that row even though its
date is older than `today - 1` — the summaries query is a row limit, not
a date window. -/
theorem claim3_counterexample :
    ¬ (∀ r ∈ getDailySummaries c3db 1, (0 : Int) - 1 ≤ r.date) := by
  decide

/-- C3 (amended).  The workout, mood and sleep read operations return
exactly the stored rows whose date is at least `today - N` (the SQL
filter has no upper bound), ordered newest-first by their time column.
`get_daily_summaries(N)` instead returns the `N` most-recently-dated
summary rows ordered newest-first, with no date window at all: every
returned row is at least as recent as every row left out, but a returned
row may be arbitrarily older than `today - N`. -/
theorem claim3_window_amended :
    (∀ (today : Int) (days : Nat) (db : Db),
      (∀ w, w ∈ getWorkouts today days db ↔
        w ∈ db.workouts ∧ today - (days : Int) ≤ w.date) ∧
      List.Sorted workoutGe (getWorkouts today days db)) ∧
    (∀ (today : Int) (days : Nat) (db : Db),
      (∀ m, m ∈ getMoodEntries today days db ↔
        m ∈ db.mood_entries ∧ today - (days : Int) ≤ m.date) ∧
      List.Sorted moodGe (getMoodEntries today days db)) ∧
    (∀ (today : Int) (days : Nat) (db : Db),
      (∀ s, s ∈ getSleepSessions today days db ↔
        s ∈ db.sleep_sessions ∧ today - (days : Int) ≤ s.date) ∧
      List.Sorted sleepGe (getSleepSessions today days db)) ∧
    (∀ (days : Nat) (db : Db),
      (∀ r ∈ getDailySummaries db days, r ∈ db.daily_summary) ∧
      (getDailySummaries db days).length = min days db.daily_summary.length ∧
      List.Sorted dateGe (getDailySummaries db days) ∧
      (∀ r ∈ getDailySummaries db days, ∀ x ∈ db.daily_summary,
        x ∉ getDailySummaries db days → x.date ≤ r.date)) := by
  refine ⟨fun today days db => ⟨?_, ?_⟩, fun today days db => ⟨?_, ?_⟩,
    fun today days db => ⟨?_, ?_⟩, fun days db => ⟨?_, ?_, ?_, ?_⟩⟩
  · intro w
    simp [getWorkouts, List.mem_filter]
  · exact List.sorted_insertionSort workoutGe _
  · intro m
    simp [getMoodEntries, List.mem_filter]
  · exact List.sorted_insertionSort moodGe _
  · intro s
    simp [getSleepSessions, List.mem_filter]
  · exact List.sorted_insertionSort sleepGe _
  · intro r hr
    have h1 : r ∈ List.insertionSort dateGe db.daily_summary :=
      (List.take_subset _ _) hr
    exact (List.mem_insertionSort dateGe).mp h1
  · simp [getDailySummaries, List.length_take]
  · exact List.Pairwise.take (List.sorted_insertionSort dateGe _)
  · intro r hr x hx hnx
    have hxL : x ∈ List.insertionSort dateGe db.daily_summary :=
      (List.mem_insertionSort dateGe).mpr hx
    have hsplit := List.take_append_drop days (List.insertionSort dateGe db.daily_summary)
    have hpw : List.Pairwise dateGe
        ((List.insertionSort dateGe db.daily_summary).take days ++
          (List.insertionSort dateGe db.daily_summary).drop days) := by
      rw [hsplit]
      exact List.sorted_insertionSort dateGe _
    have hxdrop : x ∈ (List.insertionSort dateGe db.daily_summary).drop days := by
      rcases List.mem_append.mp (by rw [hsplit]; exact hxL) with hcase | hcase
      · exact absurd hcase hnx
      · exact hcase
    exact (List.pairwise_append.mp hpw).2.2 r hr x hxdrop

/-- C3 witness: on a database with rows dated day 3 and day 5, the
one-row query returns only the day-5 row, which the amended theorem
forces to dominate the excluded day-3 row; the workout query at
`today = 0`, `days = 7` returns exactly the day-0 workout. -/
theorem claim3_witness :
    c3wr3.date ≤ c3wr5.date ∧
    List.Sorted dateGe (getDailySummaries c3wdb 1) ∧
    (c3wWorkout ∈ getWorkouts 0 7 c3wdb ↔
      c3wWorkout ∈ c3wdb.workouts ∧ (0 : Int) - (7 : Nat) ≤ c3wWorkout.date) := by
  refine ⟨?_, ?_, ?_⟩
  · exact ((claim3_window_amended.2.2.2 1 c3wdb).2.2.2) c3wr5 (by decide) c3wr3
      (by decide) (by decide)
  · exact (claim3_window_amended.2.2.2 1 c3wdb).2.2.1
  · exact (claim3_window_amended.1 0 7 c3wdb).1 c3wWorkout

theorem fenceStep_ne_raised (pat : List Char) (pad : Nat) (cs : List Char)
    (h : fenceCloses pat pad cs = true) : fenceStep pat pad cs ≠ .raised := by
  cases h1 : subIndex pat cs with
  | none => simp [fenceStep, h1]
  | some i =>
      cases h2 : subIndex fencePat (cs.drop (i + pad)) with
      | none => simp [fenceCloses, h1, h2] at h
      | some e =>
          cases h3 : jsonLoads (trimChars ((cs.drop (i + pad)).take e)) <;>
            simp [fenceStep, h1, h2, h3]

/-- C4 counterexample: a reply whose ```json fence is never closed.  The
text is not directly parseable, and the outermost-brace strategy would
succeed on it, yet the extractor raises (from the unguarded `text.index`
lookup of the closing fence) instead of returning the brace-extracted
object.  This refutes the claimed strategy order and the claimed
error-iff-all-fail equivalence. -/
theorem claim4_counterexample :
    jsonLoads (trimChars c4text.data) = none ∧
    (braceParse (trimChars c4text.data)).isSome = true ∧
    extractJson c4text = .error .unclosedFence := by
  exact ⟨rfl, rfl, rfl⟩

/-- C4 (amended).  Provided every fence marker occurring in the (stripped)
text is followed by a closing fence, `_extract_json` returns the first
success of the strategy chain — direct parse, then fenced-block
extraction, then outermost-brace extraction — and raises its parse error
precisely when all strategies fail.  Without that proviso an unclosed
fence raises before the brace scan is attempted. -/
theorem claim4_strategy_order_amended (text : String)
    (h1 : fenceCloses fenceJsonPat 7 (trimChars text.data) = true)
    (h2 : fenceCloses fencePat 3 (trimChars text.data) = true) :
    extractJson text =
      match specExtract text with
      | some j => Except.ok j
      | none => Except.error ExtractError.notFound := by
  have e1 := fenceStep_ne_raised fenceJsonPat 7 (trimChars text.data) h1
  have e2 := fenceStep_ne_raised fencePat 3 (trimChars text.data) h2
  cases h0 : jsonLoads (trimChars text.data) with
  | some j => simp [extractJson, specExtract, h0]
  | none =>
      cases hf1 : fenceStep fenceJsonPat 7 (trimChars text.data) with
      | raised => exact absurd hf1 e1
      | parsed j => simp [extractJson, specExtract, h0, hf1]
      | absent =>
          cases hf2 : fenceStep fencePat 3 (trimChars text.data) with
          | raised => exact absurd hf2 e2
          | parsed j => simp [extractJson, specExtract, h0, hf1, hf2]
          | absent =>
              cases hb : braceParse (trimChars text.data) <;>
                simp [extractJson, specExtract, h0, hf1, hf2, hb]
          | failed =>
              cases hb : braceParse (trimChars text.data) <;>
                simp [extractJson, specExtract, h0, hf1, hf2, hb]
      | failed =>
          cases hf2 : fenceStep fencePat 3 (trimChars text.data) with
          | raised => exact absurd hf2 e2
          | parsed j => simp [extractJson, specExtract, h0, hf1, hf2]
          | absent =>
              cases hb : braceParse (trimChars text.data) <;>
                simp [extractJson, specExtract, h0, hf1, hf2, hb]
          | failed =>
              cases hb : braceParse (trimChars text.data) <;>
                simp [extractJson, specExtract, h0, hf1, hf2, hb]

/-- C4 witness: a well-fenced reply is recovered (via the strategy chain
of the amended claim) as a successful extraction. -/
theorem claim4_witness : ∃ j, extractJson c4wt = .ok j := by
  have h := claim4_strategy_order_amended c4wt (by decide) (by decide)
  obtain ⟨j, hj⟩ : ∃ j, specExtract c4wt = some j := ⟨_, rfl⟩
  exact ⟨j, by rw [h, hj]⟩

/-!
Lemmas about the sleep-session upsert and claim C6.
-/

@[simp] theorem sleepKey_overwrite (new old : SleepRow) :
    sleepKey (overwriteSleep new old) = sleepKey old := rfl


theorem keys_upsertSleep (new : SleepRow) (t : List SleepRow) :
    (upsertSleep new t).map sleepKey =
      if sleepKey new ∈ t.map sleepKey then t.map sleepKey
      else t.map sleepKey ++ [sleepKey new] := by
  induction t with
  | nil => simp [upsertSleep]
  | cons r rs ih =>
      by_cases h : sleepKey r = sleepKey new
      · simp [upsertSleep, h]
      · have hne : sleepKey new ≠ sleepKey r := fun hc => h hc.symm
        by_cases hmem : sleepKey new ∈ rs.map sleepKey
        · simp [upsertSleep, h, hmem, hne, ih]
        · simp [upsertSleep, h, hmem, hne, ih]

theorem nodup_upsertSleep (new : SleepRow) (t : List SleepRow)
    (h : (t.map sleepKey).Nodup) : ((upsertSleep new t).map sleepKey).Nodup := by
  rw [keys_upsertSleep]
  by_cases hmem : sleepKey new ∈ t.map sleepKey
  · rwa [if_pos hmem]
  · rw [if_neg hmem]
    simp [List.nodup_append, h, hmem]

theorem nodup_sleepFold (l : List SleepSession) (t : List SleepRow)
    (h : (t.map sleepKey).Nodup) :
    ((l.foldl (fun acc s => upsertSleep (mkSleepRow s) acc) t).map sleepKey).Nodup := by
  induction l generalizing t with
  | nil => exact h
  | cons s rest ih => exact ih _ (nodup_upsertSleep _ _ h)

theorem sleepNodup_storeSync (p : HealthSyncPayload) (db : Db)
    (h : sleepNodup db) : sleepNodup (storeSync p db) :=
  nodup_sleepFold p.sleep db.sleep_sessions h

theorem upsertSleep_mem_updated (new : SleepRow) (t : List SleepRow)
    (h : sleepKey new ∈ t.map sleepKey) :
    ∃ r ∈ upsertSleep new t, sleepKey r = sleepKey new ∧
      r.end_time = new.end_time ∧ r.total_duration_min = new.total_duration_min ∧
      r.in_bed_duration_min = new.in_bed_duration_min ∧ r.stages = new.stages := by
  induction t with
  | nil => simp at h
  | cons r rs ih =>
      by_cases hk : sleepKey r = sleepKey new
      · refine ⟨overwriteSleep new r, ?_, ?_, rfl, rfl, rfl, rfl⟩
        · simp [upsertSleep, hk]
        · simp [hk]
      · rw [List.map_cons] at h
        have hmem : sleepKey new ∈ rs.map sleepKey := by
          rcases List.mem_cons.mp h with hc | hc
          · exact absurd hc (fun hc2 => hk hc2.symm)
          · exact hc
        obtain ⟨x, hx, hprop⟩ := ih hmem
        exact ⟨x, by simp [upsertSleep, hk, hx], hprop⟩

/-- C6.  Resubmitting a sleep session with an already-stored
(date, start_time) key updates the existing row in place — the key set of
the table is unchanged and the stored row carries the new end time,
durations and stage breakdown — and starting from any duplicate-free
state (in particular the fresh database), the sleep_sessions table never
contains two rows with the same (date, start_time) after any sequence of
`store_sync` calls. -/
theorem claim6_sleep_upsert_unique :
    (∀ (db : Db) (p : HealthSyncPayload) (s : SleepSession), p.sleep = [s] →
      sleepKey (mkSleepRow s) ∈ db.sleep_sessions.map sleepKey →
      (storeSync p db).sleep_sessions.map sleepKey = db.sleep_sessions.map sleepKey ∧
      ∃ r ∈ (storeSync p db).sleep_sessions, sleepKey r = sleepKey (mkSleepRow s) ∧
        r.end_time = s.end_ ∧ r.total_duration_min = s.total_duration_min ∧
        r.in_bed_duration_min = s.in_bed_duration_min ∧ r.stages = s.stages) ∧
    (∀ (ps : List HealthSyncPayload) (db : Db),
      sleepNodup db → sleepNodup (syncSeq ps db)) := by
  constructor
  · intro db p s hp hmem
    have hss : (storeSync p db).sleep_sessions =
        upsertSleep (mkSleepRow s) db.sleep_sessions := by
      simp [storeSync, hp]
    constructor
    · rw [hss, keys_upsertSleep, if_pos hmem]
    · rw [hss]
      exact upsertSleep_mem_updated (mkSleepRow s) db.sleep_sessions hmem
  · intro ps
    induction ps with
    | nil => exact fun db h => h
    | cons p rest ih =>
        intro db h
        exact ih (storeSync p db) (sleepNodup_storeSync p db h)

/-- C6 witness: after storing `c6s1`, resubmitting `c6s2` with the same
(date, start) key leaves the key set unchanged and the stored row carries
the corrected end time, durations and stages; the empty database is
duplicate-free and stays so across both syncs. -/
theorem claim6_witness :
    (storeSync c6p2 c6db).sleep_sessions.map sleepKey =
      c6db.sleep_sessions.map sleepKey ∧
    (∃ r ∈ (storeSync c6p2 c6db).sleep_sessions,
      sleepKey r = sleepKey (mkSleepRow c6s2) ∧ r.end_time = c6s2.end_ ∧
      r.total_duration_min = c6s2.total_duration_min ∧
      r.in_bed_duration_min = c6s2.in_bed_duration_min ∧ r.stages = c6s2.stages) ∧
    sleepNodup (syncSeq [c6p1, c6p2] emptyDb) := by
  have h := claim6_sleep_upsert_unique.1 c6db c6p2 c6s2 rfl (by decide)
  exact ⟨h.1, h.2, claim6_sleep_upsert_unique.2 [c6p1, c6p2] emptyDb
    (by simp [sleepNodup, emptyDb])⟩

/-- C7.  `get_latest_summary` delegates to `get_daily_summaries(1)`:
whenever at least one summary row exists it returns exactly the head of
that one-element query result (and the HTTP endpoint returns that row);
when no row exists it returns `none` and the endpoint answers with the
`no_data` sentinel. -/
theorem claim7_latest_delegates (db : Db) :
    (db.daily_summary ≠ [] → ∃ r, getLatestSummary db = some r ∧
      getDailySummaries db 1 = [r] ∧ getLatestEndpoint db = .row r) ∧
    (db.daily_summary = [] → getLatestSummary db = none ∧
      getLatestEndpoint db = .noData) := by
  constructor
  · intro h
    have hlen : (List.insertionSort dateGe db.daily_summary) ≠ [] := by
      intro hc
      apply h
      have := List.length_insertionSort dateGe db.daily_summary
      rw [hc] at this
      exact List.length_eq_zero.mp this.symm
    cases hL : List.insertionSort dateGe db.daily_summary with
    | nil => exact absurd hL hlen
    | cons a l =>
        refine ⟨a, ?_, ?_, ?_⟩
        · simp [getLatestSummary, getDailySummaries, hL]
        · simp [getDailySummaries, hL]
        · simp [getLatestEndpoint, getLatestSummary, getDailySummaries, hL]
  · intro h
    constructor
    · simp [getLatestSummary, getDailySummaries, h]
    · simp [getLatestEndpoint, getLatestSummary, getDailySummaries, h]

/-- C7 witness: on a database with exactly one summary row the latest
query returns it, and on the empty database the endpoint answers
`no_data`. -/
theorem claim7_witness :
    getLatestSummary c7db = some (blankSummary 0) ∧
    getDailySummaries c7db 1 = [blankSummary 0] ∧
    getLatestEndpoint c7db = .row (blankSummary 0) ∧
    getLatestSummary emptyDb = none ∧ getLatestEndpoint emptyDb = .noData := by
  obtain ⟨r, h1, h2, h3⟩ := (claim7_latest_delegates c7db).1 (by decide)
  have hr : r = blankSummary 0 := by
    have hx : getDailySummaries c7db 1 = [blankSummary 0] := by decide
    rw [hx] at h2
    exact (List.cons.injEq _ _ _ _).mp h2.symm |>.1
  subst hr
  obtain ⟨h4, h5⟩ := (claim7_latest_delegates emptyDb).2 rfl
  exact ⟨h1, h2, h3, h4, h5⟩

/-- C8.  When the gateway response text cannot be extracted as JSON,
`analyze_nutrition` surfaces the parse failure and stores nothing: both
meal tables are exactly as before the request. -/
theorem claim8_parse_failure_no_store (text raw : String) (now : PyDateTime)
    (db : MealDb) (e : ExtractError) (h : extractJson raw = .error e) :
    (analyzeNutrition text raw now db).1 = .error (.parse e) ∧
    (analyzeNutrition text raw now db).2.meal_entries = db.meal_entries ∧
    (analyzeNutrition text raw now db).2.meal_nutrients = db.meal_nutrients := by
  simp [analyzeNutrition, h]

/-- C8 witness: a reply that is prose with no JSON anywhere fails with
the `notFound` parse error and leaves the empty meal database empty. -/
theorem claim8_witness :
    (analyzeNutrition "2 eggs and toast" "no json here" ⟨0⟩ emptyMealDb).1 =
      .error (.parse .notFound) ∧
    (analyzeNutrition "2 eggs and toast" "no json here" ⟨0⟩ emptyMealDb).2.meal_entries = [] ∧
    (analyzeNutrition "2 eggs and toast" "no json here" ⟨0⟩ emptyMealDb).2.meal_nutrients = [] :=
  claim8_parse_failure_no_store "2 eggs and toast" "no json here" ⟨0⟩ emptyMealDb
    .notFound rfl

/-!
Claim C9: the aggregate columns written through `x or None` are never 0.
-/



theorem ratOrNone_ne_some_zero (x : Rat) : ratOrNone x ≠ some 0 := by
  by_cases h : x = 0 <;> simp [ratOrNone, h]

theorem natOrNone_ne_some_zero (n : Nat) : natOrNone n ≠ some 0 := by
  by_cases h : n = 0 <;> simp [natOrNone, h]

theorem zeroFreeRow_delta (p : HealthSyncPayload) : zeroFreeRow (mkSummaryDelta p) :=
  ⟨natOrNone_ne_some_zero _, ratOrNone_ne_some_zero _, ratOrNone_ne_some_zero _,
    ratOrNone_ne_some_zero _, ratOrNone_ne_some_zero _, ratOrNone_ne_some_zero _,
    ratOrNone_ne_some_zero _, ratOrNone_ne_some_zero _, ratOrNone_ne_some_zero _⟩

theorem coal_ne_some_zero {a b : Option Rat} (ha : a ≠ some 0) (hb : b ≠ some 0) :
    coal a b ≠ some 0 := by
  cases a with
  | none => exact hb
  | some v => exact ha

theorem coal_ne_some_zero_int {a b : Option Int} (ha : a ≠ some 0) (hb : b ≠ some 0) :
    coal a b ≠ some 0 := by
  cases a with
  | none => exact hb
  | some v => exact ha

theorem zeroFreeRow_merge {x y : SummaryRow} (hx : zeroFreeRow x) (hy : zeroFreeRow y) :
    zeroFreeRow (mergeRow x y) :=
  ⟨coal_ne_some_zero_int hx.1 hy.1,
    coal_ne_some_zero hx.2.1 hy.2.1,
    coal_ne_some_zero hx.2.2.1 hy.2.2.1,
    coal_ne_some_zero hx.2.2.2.1 hy.2.2.2.1,
    coal_ne_some_zero hx.2.2.2.2.1 hy.2.2.2.2.1,
    coal_ne_some_zero hx.2.2.2.2.2.1 hy.2.2.2.2.2.1,
    coal_ne_some_zero hx.2.2.2.2.2.2.1 hy.2.2.2.2.2.2.1,
    coal_ne_some_zero hx.2.2.2.2.2.2.2.1 hy.2.2.2.2.2.2.2.1,
    coal_ne_some_zero hx.2.2.2.2.2.2.2.2 hy.2.2.2.2.2.2.2.2⟩

theorem mem_upsertSummary {delta r' : SummaryRow} {rows : List SummaryRow}
    (h : r' ∈ upsertSummary delta rows) :
    r' = delta ∨ r' ∈ rows ∨ ∃ x ∈ rows, r' = mergeRow delta x := by
  induction rows with
  | nil => simp [upsertSummary] at h; exact Or.inl h
  | cons r rs ih =>
      by_cases hc : r.date = delta.date
      · rw [upsertSummary, if_pos hc] at h
        rcases List.mem_cons.mp h with h1 | h1
        · exact Or.inr (Or.inr ⟨r, List.mem_cons_self r rs, h1⟩)
        · exact Or.inr (Or.inl (List.mem_cons_of_mem r h1))
      · rw [upsertSummary, if_neg hc] at h
        rcases List.mem_cons.mp h with h1 | h1
        · exact Or.inr (Or.inl (h1 ▸ List.mem_cons_self r rs))
        · rcases ih h1 with h2 | h2 | ⟨x, hx, h3⟩
          · exact Or.inl h2
          · exact Or.inr (Or.inl (List.mem_cons_of_mem r h2))
          · exact Or.inr (Or.inr ⟨x, List.mem_cons_of_mem r hx, h3⟩)

theorem zeroFreeDb_storeSync (p : HealthSyncPayload) (db : Db)
    (h : zeroFreeDb db) : zeroFreeDb (storeSync p db) := by
  intro r' hr'
  rcases mem_upsertSummary hr' with h1 | h1 | ⟨x, hx, h1⟩
  · exact h1 ▸ zeroFreeRow_delta p
  · exact h r' h1
  · exact h1 ▸ zeroFreeRow_merge (zeroFreeRow_delta p) (h x hx)

/-- C9.  The aggregate columns `workout_count`, `workout_minutes`,
`workout_calories`, `mindfulness_minutes` and the five sleep columns are
never written as 0: a computed total of zero is coerced to NULL before
the upsert, so every database reachable by `store_sync` (in particular
from the fresh database) keeps them ≠ 0, and a payload with an empty
workout list, no sleep session ending on the summary date, or zero
mindfulness minutes leaves the previously stored values of those columns
unchanged. -/
theorem claim9_zero_coerced_to_null :
    (∀ (ps : List HealthSyncPayload) (db : Db),
      zeroFreeDb db → zeroFreeDb (syncSeq ps db)) ∧
    (∀ ps : List HealthSyncPayload, zeroFreeDb (syncSeq ps emptyDb)) ∧
    (∀ (p : HealthSyncPayload) (db : Db) (d : Int), p.workouts = [] →
      sField (storeSync p db) d (·.workout_count) = sField db d (·.workout_count) ∧
      sField (storeSync p db) d (·.workout_minutes) = sField db d (·.workout_minutes) ∧
      sField (storeSync p db) d (·.workout_calories) = sField db d (·.workout_calories)) ∧
    (∀ (p : HealthSyncPayload) (db : Db) (d : Int), dateSleeps p = [] →
      sField (storeSync p db) d (·.sleep_duration_min) = sField db d (·.sleep_duration_min) ∧
      sField (storeSync p db) d (·.deep_sleep_min) = sField db d (·.deep_sleep_min) ∧
      sField (storeSync p db) d (·.rem_sleep_min) = sField db d (·.rem_sleep_min) ∧
      sField (storeSync p db) d (·.core_sleep_min) = sField db d (·.core_sleep_min) ∧
      sField (storeSync p db) d (·.awake_min) = sField db d (·.awake_min)) ∧
    (∀ (p : HealthSyncPayload) (db : Db) (d : Int),
      (p.mindfulness.map (·.duration_min)).sum = 0 →
      sField (storeSync p db) d (·.mindfulness_minutes) =
        sField db d (·.mindfulness_minutes)) := by
  have hseq : ∀ (ps : List HealthSyncPayload) (db : Db),
      zeroFreeDb db → zeroFreeDb (syncSeq ps db) := by
    intro ps
    induction ps with
    | nil => exact fun db h => h
    | cons p rest ih => exact fun db h => ih (storeSync p db) (zeroFreeDb_storeSync p db h)
  refine ⟨hseq, fun ps => hseq ps emptyDb (by intro r hr; simp [emptyDb] at hr),
    fun p db d h => ⟨?_, ?_, ?_⟩, fun p db d h => ?_, fun p db d h => ?_⟩
  · exact sField_storeSync_of_none p db d (·.workout_count) (fun x y => rfl)
      (by simp [mkSummaryDelta, h, natOrNone])
  · exact sField_storeSync_of_none p db d (·.workout_minutes) (fun x y => rfl)
      (by simp [mkSummaryDelta, h, ratOrNone])
  · exact sField_storeSync_of_none p db d (·.workout_calories) (fun x y => rfl)
      (by simp [mkSummaryDelta, h, ratOrNone])
  · obtain ⟨h1, h2, h3, h4, h5⟩ := delta_sleep_fields_none p h
    exact ⟨sField_storeSync_of_none p db d (·.sleep_duration_min) (fun x y => rfl) h1,
      sField_storeSync_of_none p db d (·.deep_sleep_min) (fun x y => rfl) h2,
      sField_storeSync_of_none p db d (·.rem_sleep_min) (fun x y => rfl) h3,
      sField_storeSync_of_none p db d (·.core_sleep_min) (fun x y => rfl) h4,
      sField_storeSync_of_none p db d (·.awake_min) (fun x y => rfl) h5⟩
  · exact sField_storeSync_of_none p db d (·.mindfulness_minutes) (fun x y => rfl)
      (by simp [mkSummaryDelta, ratOrNone, h])

/-- C9 witness: after syncing a payload with one 40-minute workout the
reachable state is zero-free, and a later payload with no workouts leaves
the stored workout columns unchanged. -/
theorem claim9_witness :
    zeroFreeDb (syncSeq [c9p] emptyDb) ∧
    sField (storeSync c9p2 (syncSeq [c9p] emptyDb)) 0 (·.workout_count) =
      sField (syncSeq [c9p] emptyDb) 0 (·.workout_count) ∧
    sField (syncSeq [c9p] emptyDb) 0 (·.workout_count) = some 1 := by
  refine ⟨claim9_zero_coerced_to_null.2.1 [c9p], ?_, by decide⟩
  exact (claim9_zero_coerced_to_null.2.2.1 c9p2 (syncSeq [c9p] emptyDb) 0 rfl).1

/-!
Claim C10: sleep sessions ending away from the payload's period date.
-/

theorem pyDateTime_eq_of_t {a b : PyDateTime} (h : a.t = b.t) : a = b := by
  cases a; cases b; simpa using h

theorem key_mem_upsertSleep_self (new : SleepRow) (t : List SleepRow) :
    sleepKey new ∈ (upsertSleep new t).map sleepKey := by
  rw [keys_upsertSleep]
  by_cases h : sleepKey new ∈ t.map sleepKey
  · rwa [if_pos h]
  · rw [if_neg h]; simp

theorem key_mem_upsertSleep_mono (k : Int × Int) (new : SleepRow) (t : List SleepRow)
    (h : k ∈ t.map sleepKey) : k ∈ (upsertSleep new t).map sleepKey := by
  rw [keys_upsertSleep]
  by_cases hm : sleepKey new ∈ t.map sleepKey
  · rwa [if_pos hm]
  · rw [if_neg hm]; exact List.mem_append_left _ h

theorem key_mem_sleepFold_mono (l : List SleepSession) (t : List SleepRow)
    (k : Int × Int) (h : k ∈ t.map sleepKey) :
    k ∈ ((l.foldl (fun acc u => upsertSleep (mkSleepRow u) acc) t).map sleepKey) := by
  induction l generalizing t with
  | nil => exact h
  | cons a rest ih => exact ih _ (key_mem_upsertSleep_mono k _ t h)

theorem key_mem_sleepFold (l : List SleepSession) (t : List SleepRow)
    (s : SleepSession) (hs : s ∈ l) :
    sleepKey (mkSleepRow s) ∈
      ((l.foldl (fun acc u => upsertSleep (mkSleepRow u) acc) t).map sleepKey) := by
  induction l generalizing t with
  | nil => cases hs
  | cons a rest ih =>
      rcases List.mem_cons.mp hs with h | h
      · subst h
        exact key_mem_sleepFold_mono rest _ _ (key_mem_upsertSleep_self _ t)
      · exact ih _ h

theorem filter_erase_of_not {α : Type} [DecidableEq α] (l : List α) (a : α)
    (pred : α → Bool) (h : pred a = false) :
    (l.erase a).filter pred = l.filter pred := by
  induction l with
  | nil => rfl
  | cons b bs ih =>
      by_cases hba : b = a
      · subst hba
        rw [List.erase_cons_head]
        simp [List.filter_cons, h]
      · rw [List.erase_cons_tail (by simpa using hba)]
        simp only [List.filter_cons]
        cases pred b <;> simp [ih]

/-- C10.  A sleep session whose wake-up date differs from the payload's
`period_to` date is still upserted into `sleep_sessions` under its
end-derived date, but contributes nothing to any `daily_summary` row:
the summary row of the session's own end date is untouched, and the
stored summaries are identical to those produced by the same payload with
the session removed. -/
theorem claim10_foreign_date_sleep_frame (p : HealthSyncPayload) (db : Db)
    (s : SleepSession) (hs : s ∈ p.sleep) (hd : s.end_.day ≠ p.period_to.day) :
    (∃ r ∈ (storeSync p db).sleep_sessions,
      r.date = s.end_.day ∧ r.start_time = s.start) ∧
    summaryAt (storeSync p db).daily_summary s.end_.day =
      summaryAt db.daily_summary s.end_.day ∧
    (storeSync p db).daily_summary =
      (storeSync { p with sleep := p.sleep.erase s } db).daily_summary := by
  refine ⟨?_, ?_, ?_⟩
  · have hk := key_mem_sleepFold p.sleep db.sleep_sessions s hs
    obtain ⟨r, hr, hkey⟩ := List.mem_map.mp hk
    refine ⟨r, hr, ?_, ?_⟩
    · exact congrArg Prod.fst hkey
    · exact pyDateTime_eq_of_t (congrArg Prod.snd hkey)
  · have hda : (mkSummaryDelta p).date = p.period_to.day := rfl
    exact summaryAt_upsert_other _ _ _ (fun hc => hd (hda.symm.trans hc).symm)
  · have hds : dateSleeps { p with sleep := p.sleep.erase s } = dateSleeps p := by
      show (p.sleep.erase s).filter (fun u => u.end_.day = p.period_to.day) =
        p.sleep.filter (fun u => u.end_.day = p.period_to.day)
      exact filter_erase_of_not p.sleep s _ (by simpa using hd)
    have hdelta : mkSummaryDelta { p with sleep := p.sleep.erase s } = mkSummaryDelta p := by
      simp only [mkSummaryDelta, hds]
    show upsertSummary (mkSummaryDelta p) db.daily_summary =
      upsertSummary (mkSummaryDelta { p with sleep := p.sleep.erase s }) db.daily_summary
    rw [hdelta]

/-- C10 witness: the payload for day 0 carrying a session ending on day 5
stores a sleep row dated day 5, yet no summary row for day 5 appears, and
the summaries equal those of the payload without the session. -/
theorem claim10_witness :
    (∃ r ∈ (storeSync c10p emptyDb).sleep_sessions,
      r.date = c10s.end_.day ∧ r.start_time = c10s.start) ∧
    summaryAt (storeSync c10p emptyDb).daily_summary c10s.end_.day =
      summaryAt emptyDb.daily_summary c10s.end_.day ∧
    (storeSync c10p emptyDb).daily_summary =
      (storeSync { c10p with sleep := c10p.sleep.erase c10s } emptyDb).daily_summary ∧
    c10s.end_.day = 5 ∧ c10p.period_to.day = 0 := by
  have h := claim10_foreign_date_sleep_frame c10p emptyDb c10s
    (List.mem_cons_self _ _) (by decide)
  exact ⟨h.1, h.2.1, h.2.2, by decide, by decide⟩
